import Mathlib

/-!
Shallow embedding of the loop-route candidate generator of the
cycle-route-mapper repository, together with theorems checking its
natural-language specification.

Conventions of the embedding:
* JavaScript numbers are modelled as exact arithmetic: coordinates and
  provider distances as rationals where the source only adds, divides and
  compares them, and as reals where the source applies transcendental
  functions (haversine, bearing, the spherical destination formula).
  IEEE-754 rounding is not modelled.  A JavaScript division 0/0 yields NaN,
  for which every ordered comparison is false; the embedding uses the total
  division of Mathlib, where x/0 = 0, which yields the same truth value for
  the comparisons the source performs (NaN > c and 0 > c are both false for
  the positive thresholds 0.4 and 0.7).
* Math.random() draws are passed in explicitly as arguments (a stream of
  values), making the sampling functions deterministic in their inputs.
* The HTTP round trip to the Google Directions API is abstracted as a
  provider function from the attempt index to a decoded JSON response; the
  request URL (which only carries the sampled waypoints outward) is dropped,
  as are response fields the generator never reads.
* uuid() / Date.now() route identifiers are modelled by the attempt index;
  fields of the constructed route objects that no branch of the generator
  ever reads again (steps, bounds, description, createdAt, the stored
  waypoint list) are omitted.

The repository holds two evolving variants of the generator; they are
embedded in the namespaces Part003 and Part004 after the source files
they come from, and the two persistence variants in UtilsStorage and
Part002.
-/

open scoped Classical

/-- Two-argument arctangent as computed by Math.atan2(y, x), with the
JavaScript convention atan2(0, 0) = 0. -/
noncomputable def atan2 (y x : ℝ) : ℝ :=
  if 0 < x then Real.arctan (y / x)
  else if x < 0 ∧ 0 ≤ y then Real.arctan (y / x) + Real.pi
  else if x < 0 ∧ y < 0 then Real.arctan (y / x) - Real.pi
  else if x = 0 ∧ 0 < y then Real.pi / 2
  else if x = 0 ∧ y < 0 then -(Real.pi / 2)
  else 0

/-- WGS84 coordinate pair as carried around by the generator. -/
structure Location where
  latitude : ℝ
  longitude : ℝ

/-- Haversine great-circle distance in kilometres, translated from the
calculateDistance function that both source variants share. -/
noncomputable def calculateDistance (lat1 lon1 lat2 lon2 : ℝ) : ℝ :=
  let R : ℝ := 6371
  let dLat := (lat2 - lat1) * Real.pi / 180
  let dLon := (lon2 - lon1) * Real.pi / 180
  let a := Real.sin (dLat / 2) * Real.sin (dLat / 2) +
    Real.cos (lat1 * Real.pi / 180) * Real.cos (lat2 * Real.pi / 180) *
    Real.sin (dLon / 2) * Real.sin (dLon / 2)
  let c := 2 * atan2 (Real.sqrt a) (Real.sqrt (1 - a))
  R * c

/-- Bearing-like angle used only for ordering waypoints, translated from
calculateAngle: atan2 of the coordinate differences. -/
noncomputable def calculateAngle (center point : Location) : ℝ :=
  atan2 (point.longitude - center.longitude) (point.latitude - center.latitude)

/-!
Polyline decoding (the @mapbox/polyline decode used by both variants):
each coordinate delta is a zigzag-encoded varint in 5-bit chunks offset by
63.  Accumulated integer deltas are divided by 1e5, so decoded coordinates
are exact rationals.  The 32-bit wrap of JavaScript bitwise operators is
not modelled (it is unreachable for coordinate-sized values).
-/

/-- Reads one varint value from the character stream: 5-bit chunks, least
significant first, each offset by 63, continuation bit 0x20. -/
def readVarint (shift acc : ℕ) : List Char → ℕ × List Char
  | [] => (acc, [])
  | c :: rest =>
    let b := c.toNat - 63
    let acc2 := acc + (b % 32) * 2 ^ shift
    if b < 32 then (acc2, rest) else readVarint (shift + 5) acc2 rest

/-- Zigzag decoding: (result & 1) ? ~(result >> 1) : (result >> 1). -/
def zigzagDecode (v : ℕ) : ℤ :=
  if v % 2 = 1 then -((v / 2 : ℕ) : ℤ) - 1 else ((v / 2 : ℕ) : ℤ)

/-- Decodes a polyline character stream, carrying the running integer
latitude and longitude accumulators.  Every loop iteration of the source
consumes at least one character, so the character count is passed as a
structural fuel; with fuel at least the stream length the behaviour is
that of the source loop. -/
def polyDecodeAux : ℕ → List Char → ℤ → ℤ → List (ℚ × ℚ)
  | 0, _, _, _ => []
  | _ + 1, [], _, _ => []
  | fuel + 1, c :: rest, lat, lng =>
    let r1 := readVarint 0 0 (c :: rest)
    let lat2 := lat + zigzagDecode r1.1
    let r2 := readVarint 0 0 r1.2
    let lng2 := lng + zigzagDecode r2.1
    ((lat2 : ℚ) / 100000, (lng2 : ℚ) / 100000) :: polyDecodeAux fuel r2.2 lat2 lng2

/-- Decodes an encoded polyline string into its coordinate sequence. -/
def polyDecode (s : String) : List (ℚ × ℚ) :=
  polyDecodeAux s.data.length s.data 0 0

/-- Consecutive coordinate pairs of a path: the route segments the overlap
filters compare. -/
def segmentsOf (l : List (ℚ × ℚ)) : List ((ℚ × ℚ) × (ℚ × ℚ)) :=
  l.zip l.tail

/-- Fixed coordinate tolerance of both overlap filters (about 10 m). -/
def TOLERANCE : ℚ := 1 / 10000

/-- Endpoint-wise closeness test of two segments as both filters perform
it: start to start and end to end, each coordinate within TOLERANCE. -/
def segMatch (s t : (ℚ × ℚ) × (ℚ × ℚ)) : Bool :=
  decide (|s.1.1 - t.1.1| < TOLERANCE ∧ |s.1.2 - t.1.2| < TOLERANCE ∧
    |s.2.1 - t.2.1| < TOLERANCE ∧ |s.2.2 - t.2.2| < TOLERANCE)

/-- Overlapping-segment and total-segment counters of hasPathOverlap: the
inner loop breaks at the first match, so a segment of path1 is counted
once when some segment of path2 matches it. -/
def overlapCounts : List ((ℚ × ℚ) × (ℚ × ℚ)) → List ((ℚ × ℚ) × (ℚ × ℚ)) → ℕ × ℕ
  | [], _ => (0, 0)
  | s :: rest, segs2 =>
    let r := overlapCounts rest segs2
    ((if segs2.any (segMatch s) then r.1 + 1 else r.1), r.2 + 1)

/-- Count-based overlap pre-filter shared verbatim by both source variants:
true when more than 40 percent of path1 segments match some path2 segment.
With no segments the source divides 0 by 0 (NaN in JavaScript); the total
division of the embedding returns 0, and both fail the > 0.4 test. -/
def hasPathOverlap (path1 path2 : List (ℚ × ℚ)) : Bool :=
  let counts := overlapCounts (segmentsOf path1) (segmentsOf path2)
  decide (((counts.1 : ℚ) / (counts.2 : ℚ)) > 2 / 5)

/-- Haversine length in kilometres of one segment, translated from
calculateSegmentLength (a second copy of the haversine in part_004). -/
noncomputable def calculateSegmentLength (s e : ℚ × ℚ) : ℝ :=
  let R : ℝ := 6371
  let lat1 := (s.1 : ℝ) * Real.pi / 180
  let lat2 := (e.1 : ℝ) * Real.pi / 180
  let dLat := ((e.1 : ℝ) - (s.1 : ℝ)) * Real.pi / 180
  let dLon := ((e.2 : ℝ) - (s.2 : ℝ)) * Real.pi / 180
  let a := Real.sin (dLat / 2) * Real.sin (dLat / 2) +
    Real.cos lat1 * Real.cos lat2 * Real.sin (dLon / 2) * Real.sin (dLon / 2)
  let c := 2 * atan2 (Real.sqrt a) (Real.sqrt (1 - a))
  R * c

/-- Total geographic length of a decoded path, translated from
calculatePolylineLength. -/
noncomputable def calculatePolylineLength (points : List (ℚ × ℚ)) : ℝ :=
  ((segmentsOf points).map fun s => calculateSegmentLength s.1 s.2).sum

/-- Summed length of path1 segments that match some path2 segment; the
inner scan of calculateRouteOverlap breaks at the first match and adds the
length of the path1 segment. -/
noncomputable def overlapLengthAux :
    List ((ℚ × ℚ) × (ℚ × ℚ)) → List ((ℚ × ℚ) × (ℚ × ℚ)) → ℝ
  | [], _ => 0
  | s :: rest, segs2 =>
    (if segs2.any (segMatch s) then calculateSegmentLength s.1 s.2 else 0) +
      overlapLengthAux rest segs2

/-- Length-based overlap ratio of two decoded paths, translated from the
body of calculateRouteOverlap after decoding. -/
noncomputable def calculateRouteOverlapPoints (points1 points2 : List (ℚ × ℚ)) : ℝ :=
  overlapLengthAux (segmentsOf points1) (segmentsOf points2) /
    max (calculatePolylineLength points1) (calculatePolylineLength points2)

/-- Length-based overlap ratio on the encoded polylines, as
calculateRouteOverlap receives them in part_004. -/
noncomputable def calculateRouteOverlap (polyline1 polyline2 : String) : ℝ :=
  calculateRouteOverlapPoints (polyDecode polyline1) (polyDecode polyline2)

/-- Modelled from the specification text of the similarity filter, for
comparison with the code: the sum of the geographic lengths of the pathA
segments having a matching pathB segment (both endpoints within the fixed
coordinate tolerance, start to start and end to end), divided by the larger
of the two path lengths. -/
noncomputable def overlapRatioSpec (pathA pathB : List (ℚ × ℚ)) : ℝ :=
  (((segmentsOf pathA).filter fun s => (segmentsOf pathB).any fun t => segMatch s t).map
      fun s => calculateSegmentLength s.1 s.2).sum /
    max (calculatePolylineLength pathA) (calculatePolylineLength pathB)

/-!
Shared shape of the decoded Google Directions JSON, restricted to the
fields either generator variant reads: the response status, and per route
the overview polyline string and the legs with their metre distance and
second duration values.
-/

/-- One leg of a directions route; distance_value is metres, and
duration_value seconds, from the distance.value and duration.value JSON
fields. -/
structure DirectionsLeg where
  distance_value : ℚ
  duration_value : ℚ
deriving DecidableEq

/-- One route of a directions response. -/
structure DirectionsRoute where
  overview_polyline : String
  legs : List DirectionsLeg
deriving DecidableEq

/-- Decoded directions response. -/
structure DirectionsResponse where
  status : String
  routes : List DirectionsRoute
deriving DecidableEq

/-- Summed metres of the legs of one directions route, as both variants
reduce them. -/
def legsDistanceSum (r : DirectionsRoute) : ℚ :=
  (r.legs.map DirectionsLeg.distance_value).sum

/-- Summed seconds of the legs of one directions route. -/
def legsDurationSum (r : DirectionsRoute) : ℚ :=
  (r.legs.map DirectionsLeg.duration_value).sum

namespace Part004

/-- Spherical-destination random point of part_004: u and v stand for the
two Math.random() draws in [0, 1); the distance fraction is biased to
[0.3, 1] of the radius and the bearing is uniform.  Latitude comes out of
an arcsine; longitude adds an atan2 offset to the centre longitude and is
neither clamped nor wrapped. -/
noncomputable def generateRandomPoint (center : Location) (radiusInKm u v : ℝ) : Location :=
  let earthRadiusKm : ℝ := 6371
  let lat1Rad := center.latitude * (Real.pi / 180)
  let lon1Rad := center.longitude * (Real.pi / 180)
  let minFraction : ℝ := 0.3
  let randomFraction := minFraction + u * (1 - minFraction)
  let angularDistance := (radiusInKm / earthRadiusKm) * randomFraction
  let bearing := v * 2 * Real.pi
  let lat2Rad := Real.arcsin (Real.sin lat1Rad * Real.cos angularDistance +
    Real.cos lat1Rad * Real.sin angularDistance * Real.cos bearing)
  let lon2Rad := lon1Rad + atan2
    (Real.sin bearing * Real.sin angularDistance * Real.cos lat1Rad)
    (Real.cos angularDistance - Real.sin lat1Rad * Real.sin lat2Rad)
  { latitude := lat2Rad * (180 / Real.pi), longitude := lon2Rad * (180 / Real.pi) }

/-- Rounded-coordinate key of a sampled point; the source builds the string
of both coordinates via toFixed(5), modelled as the pair of coordinates
rounded at the fifth decimal. -/
noncomputable def pointKey (p : Location) : ℤ × ℤ :=
  (round (p.latitude * 100000), round (p.longitude * 100000))

/-- Loop body of generateRandomWaypoints: repeatedly samples a point,
rejects it when its rounded key was already used or when it lies closer
than one tenth of the radius to the start location or an accepted
waypoint, and stops once numWaypoints are accepted or the attempt budget
is spent.  The rands stream supplies the two Math.random() draws of each
attempt; the first component of the result is the accepted list, the
second the number of attempts consumed. -/
noncomputable def sampleLoop (rands : ℕ → ℝ × ℝ) (startLocation : Location)
    (radius : ℝ) (numWaypoints : ℕ) :
    ℕ → ℕ → List Location → List (ℤ × ℤ) → List Location × ℕ
  | 0, attempts, waypoints, _ => (waypoints, attempts)
  | fuel + 1, attempts, waypoints, usedPoints =>
    if waypoints.length < numWaypoints then
      let draw := rands attempts
      let point := generateRandomPoint startLocation radius draw.1 draw.2
      let key := pointKey point
      let tooClose := ∃ existingPoint ∈ startLocation :: waypoints,
        calculateDistance point.latitude point.longitude
          existingPoint.latitude existingPoint.longitude < radius * 0.1
      if key ∉ usedPoints ∧ ¬ tooClose then
        sampleLoop rands startLocation radius numWaypoints fuel (attempts + 1)
          (waypoints ++ [point]) (usedPoints ++ [key])
      else
        sampleLoop rands startLocation radius numWaypoints fuel (attempts + 1)
          waypoints usedPoints
    else (waypoints, attempts)

/-- Waypoint sampler of part_004 with its attempt count: the loop runs with
budget numWaypoints * 5 and the accepted points are then sorted by
ascending angle from the start location. -/
noncomputable def generateRandomWaypointsRun (rands : ℕ → ℝ × ℝ)
    (startLocation : Location) (radius : ℝ) (numWaypoints : ℕ) :
    List Location × ℕ :=
  let r := sampleLoop rands startLocation radius numWaypoints
    (numWaypoints * 5) 0 [] []
  (r.1.mergeSort fun a b =>
    decide (calculateAngle startLocation a ≤ calculateAngle startLocation b), r.2)

/-- Waypoint list returned by generateRandomWaypoints of part_004. -/
noncomputable def generateRandomWaypoints (rands : ℕ → ℝ × ℝ)
    (startLocation : Location) (radius : ℝ) (numWaypoints : ℕ) : List Location :=
  (generateRandomWaypointsRun rands startLocation radius numWaypoints).1

/-- Route object of part_004 restricted to the fields the generator reads
again or the claims mention; id stands for the uuid (modelled by the
attempt index), points is the encoded overview polyline. -/
structure Route where
  id : ℕ
  name : String
  distance : ℚ
  duration : ℚ
  points : String
deriving DecidableEq

/-- Similarity gate of part_004: with at least one accepted route, the
candidate polyline is rejected when its length-based overlap with some
accepted route exceeds 0.7. -/
def rejectedBySimilarity (routes : List Route) (candidate : String) : Prop :=
  0 < routes.length ∧
    ∃ existingRoute ∈ routes,
      calculateRouteOverlap existingRoute.points candidate > 0.7

/-- Attempt loop of generateRoutes of part_004.  provider maps the attempt
index to the decoded directions response of that attempt; the fuel starts
at the attempt budget; the accumulator carries the accepted routes and the
attempt counter. -/
noncomputable def generateRoutesLoop (provider : ℕ → DirectionsResponse)
    (numRoutes : ℕ) (minDistanceKm maxDistanceKm : ℚ) :
    ℕ → ℕ → List Route → List Route × ℕ
  | 0, attempts, routes => (routes, attempts)
  | fuel + 1, attempts, routes =>
    if routes.length < numRoutes then
      if (provider attempts).status ≠ "OK" then
        generateRoutesLoop provider numRoutes minDistanceKm maxDistanceKm
          fuel (attempts + 1) routes
      else
        match (provider attempts).routes.head? with
        | none =>
          generateRoutesLoop provider numRoutes minDistanceKm maxDistanceKm
            fuel (attempts + 1) routes
        | some route =>
          if legsDistanceSum route / 1000 < minDistanceKm ∨
              legsDistanceSum route / 1000 > maxDistanceKm then
            generateRoutesLoop provider numRoutes minDistanceKm maxDistanceKm
              fuel (attempts + 1) routes
          else if rejectedBySimilarity routes route.overview_polyline then
            generateRoutesLoop provider numRoutes minDistanceKm maxDistanceKm
              fuel (attempts + 1) routes
          else
            generateRoutesLoop provider numRoutes minDistanceKm maxDistanceKm
              fuel (attempts + 1)
              (routes ++ [{ id := attempts,
                            name := "Route " ++ toString (routes.length + 1),
                            distance := legsDistanceSum route / 1000,
                            duration := legsDurationSum route,
                            points := route.overview_polyline }])
    else (routes, attempts)

/-- Attempt budget of generateRoutes of part_004. -/
def maxAttempts : ℕ := 100

/-- Full run of generateRoutes of part_004: accepted routes plus the number
of attempts the while loop consumed. -/
noncomputable def generateRoutesRun (provider : ℕ → DirectionsResponse)
    (numRoutes : ℕ) (minDistanceKm maxDistanceKm : ℚ) : List Route × ℕ :=
  generateRoutesLoop provider numRoutes minDistanceKm maxDistanceKm maxAttempts 0 []

/-- Route list returned by generateRoutes of part_004.  A missing first
route in an OK response makes the body dereference undefined, which the
surrounding try/catch turns into a skipped attempt, modelled by the head?
match of the loop. -/
noncomputable def generateRoutes (provider : ℕ → DirectionsResponse)
    (numRoutes : ℕ) (minDistanceKm maxDistanceKm : ℚ) : List Route :=
  (generateRoutesRun provider numRoutes minDistanceKm maxDistanceKm).1

end Part004

namespace Part003

/-- Cartesian disk-uniform random point of part_003: u and v stand for the
two Math.random() draws; the offset is scaled to 30 percent of the radius,
converted to degrees, corrected by the cosine of the latitude, and both
coordinates are clamped into range with max/min. -/
noncomputable def generateRandomPoint (center : Location) (radiusInKm u v : ℝ) : Location :=
  let adjustedRadius := radiusInKm * 0.3
  let radiusInDeg := adjustedRadius / 111.32
  let w := radiusInDeg * Real.sqrt u
  let t := 2 * Real.pi * v
  let x := w * Real.cos t
  let y := w * Real.sin t
  let newLat := max (-90) (min 90 (center.latitude + y))
  let newLng := max (-180) (min 180
    (center.longitude + x / Real.cos (center.latitude * Real.pi / 180)))
  { latitude := newLat, longitude := newLng }

/-- Route object of part_003 restricted to the fields the generator reads
again or the claims mention; id stands for the Date.now()-based identifier
(modelled by the attempt index), coordinates is the decoded path. -/
structure Route where
  id : ℕ
  name : String
  distance : ℚ
  coordinates : List (ℚ × ℚ)
deriving DecidableEq

/-- Attempt loop of generateRoutes of part_003.  provider maps the attempt
index to the decoded directions response; the accumulator carries the
accepted routes, the uniqueRoutes hash set (a route hash is the
fixed-precision rendering of the decoded path, modelled by the decoded
path itself, on which it is injective) and the attempt counter. -/
def generateRoutesLoop (provider : ℕ → DirectionsResponse) (maxRoutes : ℕ) :
    ℕ → ℕ → List Route → List (List (ℚ × ℚ)) → List Route × ℕ
  | 0, attempts, routes, _ => (routes, attempts)
  | fuel + 1, attempts, routes, uniqueRoutes =>
    if routes.length < maxRoutes then
      if (provider attempts).status ≠ "OK" ∨ (provider attempts).routes = [] then
        generateRoutesLoop provider maxRoutes fuel (attempts + 1) routes uniqueRoutes
      else
        match (provider attempts).routes.head? with
        | none =>
          generateRoutesLoop provider maxRoutes fuel (attempts + 1) routes uniqueRoutes
        | some route =>
          if route.overview_polyline = "" then
            generateRoutesLoop provider maxRoutes fuel (attempts + 1) routes uniqueRoutes
          else
            if legsDistanceSum route / 1000 < 10 then
              generateRoutesLoop provider maxRoutes fuel (attempts + 1) routes uniqueRoutes
            else if polyDecode route.overview_polyline ∈ uniqueRoutes then
              generateRoutesLoop provider maxRoutes fuel (attempts + 1) routes uniqueRoutes
            else if routes.any fun existingRoute =>
                hasPathOverlap (polyDecode route.overview_polyline)
                  existingRoute.coordinates then
              generateRoutesLoop provider maxRoutes fuel (attempts + 1) routes uniqueRoutes
            else
              generateRoutesLoop provider maxRoutes fuel (attempts + 1)
                (routes ++ [{ id := attempts,
                              name := "Route " ++ toString (routes.length + 1),
                              distance := legsDistanceSum route / 1000,
                              coordinates := polyDecode route.overview_polyline }])
                (uniqueRoutes ++ [polyDecode route.overview_polyline])
    else (routes, attempts)

/-- Attempt budget of generateRoutes of part_003. -/
def maxAttempts : ℕ := 50

/-- Full run of generateRoutes of part_003: accepted routes plus the number
of attempts the while loop consumed. -/
def generateRoutesRun (provider : ℕ → DirectionsResponse) (maxRoutes : ℕ) :
    List Route × ℕ :=
  generateRoutesLoop provider maxRoutes maxAttempts 0 [] []

/-- Route list returned by generateRoutes of part_003. -/
def generateRoutes (provider : ℕ → DirectionsResponse) (maxRoutes : ℕ) :
    List Route :=
  (generateRoutesRun provider maxRoutes).1

end Part003

/-- Stored route record shared by both persistence variants, restricted to
the fields the storage layer inspects (only the id) plus the descriptive
fields the claims mention. -/
structure SavedRoute where
  id : String
  name : String
  distance : ℚ
deriving DecidableEq

namespace UtilsStorage

/-- saveRoute of src/utils/storage.ts on the stored collection: spreads the
existing routes and appends the new one unconditionally. -/
def saveRoute (existingRoutes : List SavedRoute) (route : SavedRoute) :
    List SavedRoute :=
  existingRoutes ++ [route]

/-- deleteRoute of src/utils/storage.ts: keeps the routes whose id differs. -/
def deleteRoute (existingRoutes : List SavedRoute) (routeId : String) :
    List SavedRoute :=
  existingRoutes.filter fun route => route.id ≠ routeId

end UtilsStorage

namespace Part002

/-- saveRoute of part_002 on the stored collection: replaces the first
route carrying the same id in place when one exists (findIndex > -1),
otherwise appends the new route at the end. -/
def saveRoute (existingRoutes : List SavedRoute) (routeToSave : SavedRoute) :
    List SavedRoute :=
  let routeIndex := existingRoutes.findIdx fun route => route.id = routeToSave.id
  if routeIndex < existingRoutes.length then
    existingRoutes.set routeIndex routeToSave
  else
    existingRoutes ++ [routeToSave]

end Part002

/-!
Theorems.
-/

/-- Claim C10: for every pathB and every pathA with fewer than two points,
hasPathOverlap returns false: the segment loop never runs, totalSegments
stays 0, and the unguarded division (NaN in JavaScript, 0 under the total
division of the embedding) does not exceed the 0.4 threshold, so a
degenerate candidate path is never rejected by the count-based overlap
pre-filter. -/
theorem hasPathOverlap_degenerate_false (path1 path2 : List (ℚ × ℚ))
    (h : path1.length < 2) :
    (overlapCounts (segmentsOf path1) (segmentsOf path2)).2 = 0 ∧
      hasPathOverlap path1 path2 = false := by
  have hseg : segmentsOf path1 = [] := by
    match path1, h with
    | [], _ => simp [segmentsOf]
    | [x], _ => simp [segmentsOf]
  rw [hasPathOverlap, hseg]
  refine ⟨rfl, ?_⟩
  simp only [overlapCounts]
  norm_num

/-- Witness for C10 at a concrete degenerate path. -/
theorem hasPathOverlap_degenerate_false_witness :
    ([((0 : ℚ), (0 : ℚ))].length < 2) ∧
      ((overlapCounts (segmentsOf [((0 : ℚ), (0 : ℚ))])
          (segmentsOf [((0 : ℚ), (0 : ℚ)), (1, 1)])).2 = 0 ∧
        hasPathOverlap [((0 : ℚ), (0 : ℚ))] [((0 : ℚ), (0 : ℚ)), (1, 1)] = false) :=
  ⟨by norm_num, hasPathOverlap_degenerate_false _ _ (by norm_num)⟩

/-- Claim C8, counterexample: the saveRoute of src/utils/storage.ts appends
unconditionally, so saving a route whose id is already stored grows the
collection and leaves two routes with the saved id. -/
theorem saveRoute_duplicates_id :
    UtilsStorage.saveRoute [⟨"a", "Morning loop", 12⟩] ⟨"a", "Morning loop v2", 15⟩ =
      [⟨"a", "Morning loop", 12⟩, ⟨"a", "Morning loop v2", 15⟩] ∧
    (UtilsStorage.saveRoute [⟨"a", "Morning loop", 12⟩] ⟨"a", "Morning loop v2", 15⟩).length = 2 ∧
    ((UtilsStorage.saveRoute [⟨"a", "Morning loop", 12⟩]
        ⟨"a", "Morning loop v2", 15⟩).countP fun s => s.id == "a") = 2 := by
  refine ⟨rfl, rfl, ?_⟩
  simp [UtilsStorage.saveRoute, List.countP_cons]

theorem saveRoute_keyed_helper (r : SavedRoute) :
    ∀ stored : List SavedRoute,
      stored.countP (fun s => s.id == r.id) ≤ 1 →
      ((∃ s ∈ stored, s.id = r.id) →
        (Part002.saveRoute stored r).length = stored.length) ∧
      ((∀ s ∈ stored, s.id ≠ r.id) →
        Part002.saveRoute stored r = stored ++ [r]) ∧
      (Part002.saveRoute stored r).countP (fun s => s.id == r.id) = 1 := by
  intro stored
  induction stored with
  | nil =>
    intro _
    refine ⟨?_, ?_, ?_⟩
    · rintro ⟨s, hs, _⟩
      cases hs
    · intro _
      simp [Part002.saveRoute, List.findIdx]
    · simp [Part002.saveRoute, List.findIdx, List.countP_cons]
  | cons a l ih =>
    intro hcount
    by_cases pa : a.id = r.id
    · have hfind : (a :: l).findIdx (fun route => route.id = r.id) = 0 := by
        simp [List.findIdx_cons, pa]
      have hsave : Part002.saveRoute (a :: l) r = r :: l := by
        simp [Part002.saveRoute, hfind]
      have hl : l.countP (fun s => s.id == r.id) = 0 := by
        have := hcount
        simp only [List.countP_cons, beq_iff_eq, pa, if_pos] at this
        omega
      refine ⟨fun _ => by simp [hsave], fun hall => ?_, ?_⟩
      · exact absurd pa (hall a (by simp))
      · simp [hsave, List.countP_cons, hl]
    · have hfind : (a :: l).findIdx (fun route => route.id = r.id) =
          l.findIdx (fun route => route.id = r.id) + 1 := by
        simp [List.findIdx_cons, pa]
      have hsave : Part002.saveRoute (a :: l) r = a :: Part002.saveRoute l r := by
        by_cases hlt : l.findIdx (fun route => route.id = r.id) < l.length
        · simp [Part002.saveRoute, hfind, Nat.succ_lt_succ hlt, hlt]
        · simp [Part002.saveRoute, hfind, hlt,
            fun h => hlt (Nat.lt_of_succ_lt_succ h)]
      have hcl : l.countP (fun s => s.id == r.id) ≤ 1 := by
        have := hcount
        simp only [List.countP_cons, beq_iff_eq, pa, if_neg, if_false] at this
        omega
      obtain ⟨ih1, ih2, ih3⟩ := ih hcl
      refine ⟨?_, ?_, ?_⟩
      · rintro ⟨s, hs, hsid⟩
        rcases List.mem_cons.mp hs with h | h
        · exact absurd (h ▸ hsid) pa
        · simp [hsave, ih1 ⟨s, h, hsid⟩]
      · intro hall
        simp [hsave, ih2 fun s hs => hall s (List.mem_cons_of_mem a hs)]
      · simp [hsave, List.countP_cons, pa, ih3]

/-- Claim C8, amended: the part_002 variant of saveRoute has append-or-update
semantics keyed by route id (matching id overwritten in place with the
collection length unchanged, otherwise appended, and, provided the stored
collection did not already hold the id more than once, exactly one route
with the saved id remains); the src/utils/storage.ts variant instead
appends unconditionally and can duplicate an id. -/
theorem saveRoute_append_or_update (stored : List SavedRoute) (r : SavedRoute)
    (h : stored.countP (fun s => s.id == r.id) ≤ 1) :
    ((∃ s ∈ stored, s.id = r.id) →
      (Part002.saveRoute stored r).length = stored.length) ∧
    ((∀ s ∈ stored, s.id ≠ r.id) →
      Part002.saveRoute stored r = stored ++ [r]) ∧
    (Part002.saveRoute stored r).countP (fun s => s.id == r.id) = 1 :=
  saveRoute_keyed_helper r stored h

/-- Witness for the amended C8 at a concrete store holding the saved id. -/
theorem saveRoute_append_or_update_witness :
    (([⟨"a", "Morning loop", 12⟩] : List SavedRoute).countP
        (fun s => s.id == SavedRoute.id ⟨"a", "Morning loop v2", 15⟩) ≤ 1) ∧
    (((∃ s ∈ ([⟨"a", "Morning loop", 12⟩] : List SavedRoute),
          s.id = SavedRoute.id ⟨"a", "Morning loop v2", 15⟩) →
        (Part002.saveRoute [⟨"a", "Morning loop", 12⟩] ⟨"a", "Morning loop v2", 15⟩).length =
          ([⟨"a", "Morning loop", 12⟩] : List SavedRoute).length) ∧
      ((∀ s ∈ ([⟨"a", "Morning loop", 12⟩] : List SavedRoute),
          s.id ≠ SavedRoute.id ⟨"a", "Morning loop v2", 15⟩) →
        Part002.saveRoute [⟨"a", "Morning loop", 12⟩] ⟨"a", "Morning loop v2", 15⟩ =
          [⟨"a", "Morning loop", 12⟩] ++ [⟨"a", "Morning loop v2", 15⟩]) ∧
      (Part002.saveRoute [⟨"a", "Morning loop", 12⟩]
          ⟨"a", "Morning loop v2", 15⟩).countP
        (fun s => s.id == SavedRoute.id ⟨"a", "Morning loop v2", 15⟩) = 1) :=
  ⟨by simp, saveRoute_append_or_update _ _ (by simp)⟩

theorem sampleLoop_bound (rands : ℕ → ℝ × ℝ) (startLocation : Location)
    (radius : ℝ) (num : ℕ) :
    ∀ (fuel attempts : ℕ) (ws : List Location) (used : List (ℤ × ℤ)),
      ws.length ≤ num →
      (Part004.sampleLoop rands startLocation radius num fuel attempts ws used).2 ≤
          attempts + fuel ∧
        (Part004.sampleLoop rands startLocation radius num fuel attempts ws used).1.length ≤
          num ∧
        ((Part004.sampleLoop rands startLocation radius num fuel attempts ws
              used).1.length = num ∨
          (Part004.sampleLoop rands startLocation radius num fuel attempts ws
              used).2 = attempts + fuel) := by
  intro fuel
  induction fuel with
  | zero =>
    intro attempts ws used hlen
    exact ⟨Nat.le_refl _, hlen, Or.inr rfl⟩
  | succ fuel ih =>
    intro attempts ws used hlen
    rw [Part004.sampleLoop]
    by_cases hgo : ws.length < num
    · rw [if_pos hgo]
      by_cases hacc : (Part004.pointKey (Part004.generateRandomPoint startLocation radius
            (rands attempts).1 (rands attempts).2) ∉ used) ∧
          ¬ ∃ existingPoint ∈ startLocation :: ws,
            calculateDistance
              (Part004.generateRandomPoint startLocation radius
                (rands attempts).1 (rands attempts).2).latitude
              (Part004.generateRandomPoint startLocation radius
                (rands attempts).1 (rands attempts).2).longitude
              existingPoint.latitude existingPoint.longitude < radius * 0.1
      · rw [if_pos hacc]
        have hlen2 : (ws ++ [Part004.generateRandomPoint startLocation radius
            (rands attempts).1 (rands attempts).2]).length ≤ num := by
          simpa using Nat.succ_le_of_lt hgo
        obtain ⟨h1, h2, h3⟩ := ih (attempts + 1) _ _ hlen2
        refine ⟨by omega, h2, ?_⟩
        rcases h3 with h | h
        · exact Or.inl h
        · exact Or.inr (by omega)
      · rw [if_neg hacc]
        obtain ⟨h1, h2, h3⟩ := ih (attempts + 1) ws used hlen
        refine ⟨by omega, h2, ?_⟩
        rcases h3 with h | h
        · exact Or.inl h
        · exact Or.inr (by omega)
    · rw [if_neg hgo]
      exact ⟨show attempts ≤ attempts + (fuel + 1) from Nat.le_add_right _ _, hlen,
        Or.inl (show ws.length = num by omega)⟩

/-- Claim C3: for every centre, radius, requested count and random stream,
the part_004 waypoint sampler consumes at most count * 5 sampling attempts,
returns at most count waypoints, and either it found the full count or it
stopped exactly at the attempt ceiling, returning the fewer points accepted
so far (the function is total, so no exception escapes). -/
theorem generateRandomWaypoints_attempt_budget (rands : ℕ → ℝ × ℝ)
    (startLocation : Location) (radius : ℝ) (numWaypoints : ℕ) :
    (Part004.generateRandomWaypointsRun rands startLocation radius numWaypoints).2 ≤
        numWaypoints * 5 ∧
      (Part004.generateRandomWaypoints rands startLocation radius numWaypoints).length ≤
        numWaypoints ∧
      ((Part004.generateRandomWaypoints rands startLocation radius
            numWaypoints).length = numWaypoints ∨
        (Part004.generateRandomWaypointsRun rands startLocation radius
            numWaypoints).2 = numWaypoints * 5) := by
  obtain ⟨h1, h2, h3⟩ :=
    sampleLoop_bound rands startLocation radius numWaypoints
      (numWaypoints * 5) 0 [] [] (by simp)
  have hlen : (Part004.generateRandomWaypoints rands startLocation radius
      numWaypoints).length =
      (Part004.sampleLoop rands startLocation radius numWaypoints
        (numWaypoints * 5) 0 [] []).1.length := by
    simp [Part004.generateRandomWaypoints, Part004.generateRandomWaypointsRun]
  refine ⟨by simpa [Part004.generateRandomWaypointsRun] using h1, by omega, ?_⟩
  rcases h3 with h | h
  · exact Or.inl (by omega)
  · exact Or.inr (by simpa [Part004.generateRandomWaypointsRun] using h)

theorem generateRoutesLoop4_all_fail (provider : ℕ → DirectionsResponse)
    (h : ∀ n, (provider n).status ≠ "OK") (numRoutes : ℕ)
    (minDistanceKm maxDistanceKm : ℚ) :
    ∀ (fuel attempts : ℕ) (routes : List Part004.Route),
      routes.length < numRoutes →
      Part004.generateRoutesLoop provider numRoutes minDistanceKm maxDistanceKm
          fuel attempts routes = (routes, attempts + fuel) := by
  intro fuel
  induction fuel with
  | zero => intro attempts routes _; rfl
  | succ fuel ih =>
    intro attempts routes hlen
    rw [Part004.generateRoutesLoop, if_pos hlen, if_pos (h attempts)]
    rw [ih (attempts + 1) routes hlen]
    exact congrArg _ (by omega)

theorem generateRoutesLoop3_all_fail (provider : ℕ → DirectionsResponse)
    (h : ∀ n, (provider n).status ≠ "OK") (maxRoutes : ℕ) :
    ∀ (fuel attempts : ℕ) (routes : List Part003.Route)
      (uniqueRoutes : List (List (ℚ × ℚ))),
      routes.length < maxRoutes →
      Part003.generateRoutesLoop provider maxRoutes fuel attempts routes
          uniqueRoutes = (routes, attempts + fuel) := by
  intro fuel
  induction fuel with
  | zero => intro attempts routes uniqueRoutes _; rfl
  | succ fuel ih =>
    intro attempts routes uniqueRoutes hlen
    rw [Part003.generateRoutesLoop, if_pos hlen, if_pos (Or.inl (h attempts))]
    rw [ih (attempts + 1) routes uniqueRoutes hlen]
    exact congrArg _ (by omega)

/-- Claim C4: when the provider answers every request with a non-success
status, both generator variants run exactly their attempt budget (100 for
part_004, 50 for part_003) - not fewer and not more - return the empty
route list, and, being total functions, raise nothing. -/
theorem generateRoutes_all_fail_empty (provider : ℕ → DirectionsResponse)
    (h : ∀ n, (provider n).status ≠ "OK") (numRoutes maxRoutes : ℕ)
    (h4 : 0 < numRoutes) (h3 : 0 < maxRoutes) (minDistanceKm maxDistanceKm : ℚ) :
    Part004.generateRoutesRun provider numRoutes minDistanceKm maxDistanceKm =
        ([], 100) ∧
      Part004.generateRoutes provider numRoutes minDistanceKm maxDistanceKm = [] ∧
      Part003.generateRoutesRun provider maxRoutes = ([], 50) ∧
      Part003.generateRoutes provider maxRoutes = [] := by
  have e4 : Part004.generateRoutesRun provider numRoutes minDistanceKm
      maxDistanceKm = ([], 100) := by
    rw [Part004.generateRoutesRun,
      generateRoutesLoop4_all_fail provider h numRoutes minDistanceKm
        maxDistanceKm Part004.maxAttempts 0 [] (by simpa using h4)]
    norm_num [Part004.maxAttempts]
  have e3 : Part003.generateRoutesRun provider maxRoutes = ([], 50) := by
    rw [Part003.generateRoutesRun,
      generateRoutesLoop3_all_fail provider h maxRoutes Part003.maxAttempts 0 [] []
        (by simpa using h3)]
    norm_num [Part003.maxAttempts]
  exact ⟨e4, by rw [Part004.generateRoutes, e4], e3, by rw [Part003.generateRoutes, e3]⟩

/-- Provider stub answering every request with status ZERO_RESULTS. -/
def zeroResultsProvider : ℕ → DirectionsResponse :=
  fun _ => { status := "ZERO_RESULTS", routes := [] }

/-- Witness for C4 with the provider constantly answering ZERO_RESULTS. -/
theorem generateRoutes_all_fail_empty_witness :
    (∀ n, (zeroResultsProvider n).status ≠ "OK") ∧
      (Part004.generateRoutesRun zeroResultsProvider 10 10 50 = ([], 100) ∧
        Part004.generateRoutes zeroResultsProvider 10 10 50 = [] ∧
        Part003.generateRoutesRun zeroResultsProvider 20 = ([], 50) ∧
        Part003.generateRoutes zeroResultsProvider 20 = []) := by
  have h : ∀ n, (zeroResultsProvider n).status ≠ "OK" := fun n => by
    simp [zeroResultsProvider]
  exact ⟨h, generateRoutes_all_fail_empty _ h 10 20 (by decide) (by decide) 10 50⟩

theorem generateRoutesLoop4_distance_inv (provider : ℕ → DirectionsResponse)
    (numRoutes : ℕ) (minDistanceKm maxDistanceKm : ℚ) :
    ∀ (fuel attempts : ℕ) (routes : List Part004.Route),
      (∀ r ∈ routes, (minDistanceKm ≤ r.distance ∧ r.distance ≤ maxDistanceKm) ∧
        ∃ n route, (provider n).routes.head? = some route ∧
          r.distance = legsDistanceSum route / 1000) →
      ∀ r ∈ (Part004.generateRoutesLoop provider numRoutes minDistanceKm
          maxDistanceKm fuel attempts routes).1,
        (minDistanceKm ≤ r.distance ∧ r.distance ≤ maxDistanceKm) ∧
        ∃ n route, (provider n).routes.head? = some route ∧
          r.distance = legsDistanceSum route / 1000 := by
  intro fuel
  induction fuel with
  | zero => intro attempts routes hinv r hr; exact hinv r hr
  | succ fuel ih =>
    intro attempts routes hinv r hr
    rw [Part004.generateRoutesLoop] at hr
    split at hr
    · split at hr
      · exact ih _ _ hinv r hr
      · split at hr
        · exact ih _ _ hinv r hr
        · next route heq =>
          split at hr
          · exact ih _ _ hinv r hr
          · split at hr
            · exact ih _ _ hinv r hr
            · next hband _ =>
              refine ih _ _ ?_ r hr
              intro x hx
              rcases List.mem_append.mp hx with h | h
              · exact hinv x h
              · have hx2 := List.mem_singleton.mp h
                subst hx2
                push_neg at hband
                exact ⟨⟨hband.1, hband.2⟩, attempts, route, heq, rfl⟩
    · exact hinv r hr

/-- Claim C1: every route returned by generateRoutes of part_004 records as
its distance the sum of the per-leg distance values of the provider
response it was built from, divided by 1000, and that distance lies in the
closed interval between the minDistanceKm and maxDistanceKm arguments. -/
theorem generateRoutes_distance_band (provider : ℕ → DirectionsResponse)
    (numRoutes : ℕ) (minDistanceKm maxDistanceKm : ℚ) :
    ∀ r ∈ Part004.generateRoutes provider numRoutes minDistanceKm maxDistanceKm,
      (minDistanceKm ≤ r.distance ∧ r.distance ≤ maxDistanceKm) ∧
      ∃ n route, (provider n).routes.head? = some route ∧
        r.distance = legsDistanceSum route / 1000 := by
  intro r hr
  exact generateRoutesLoop4_distance_inv provider numRoutes minDistanceKm
    maxDistanceKm Part004.maxAttempts 0 [] (by simp) r hr

/-- Provider stub answering every request with one OK route of two decoded
points and a single 12000 m, 3600 s leg. -/
def okProvider : ℕ → DirectionsResponse :=
  fun _ => { status := "OK",
             routes := [{ overview_polyline := "??_ibE?",
                          legs := [⟨12000, 3600⟩] }] }

/-- Route record the generator builds from okProvider on its first attempt. -/
def okRoute : Part004.Route :=
  { id := 0, name := "Route 1", distance := 12, duration := 3600,
    points := "??_ibE?" }

theorem generateRoutesRun_okProvider :
    Part004.generateRoutesRun okProvider 1 10 50 = ([okRoute], 1) := by
  rw [Part004.generateRoutesRun, show Part004.maxAttempts = 99 + 1 from rfl,
    Part004.generateRoutesLoop]
  rw [if_pos (show ([] : List Part004.Route).length < 1 by simp)]
  rw [if_neg (show ¬ (okProvider 0).status ≠ "OK" by simp [okProvider])]
  rw [show (okProvider 0).routes.head? = some ⟨"??_ibE?", [⟨12000, 3600⟩]⟩ from rfl]
  have hd : legsDistanceSum ⟨"??_ibE?", [⟨12000, 3600⟩]⟩ = 12000 := by
    norm_num [legsDistanceSum]
  show (if legsDistanceSum ⟨"??_ibE?", [⟨12000, 3600⟩]⟩ / 1000 < 10 ∨
      legsDistanceSum ⟨"??_ibE?", [⟨12000, 3600⟩]⟩ / 1000 > 50 then
    Part004.generateRoutesLoop okProvider 1 10 50 99 (0 + 1) []
  else if Part004.rejectedBySimilarity [] "??_ibE?" then
    Part004.generateRoutesLoop okProvider 1 10 50 99 (0 + 1) []
  else
    Part004.generateRoutesLoop okProvider 1 10 50 99 (0 + 1)
      ([] ++ [{ id := 0,
                name := "Route " ++ toString (List.length ([] : List Part004.Route) + 1),
                distance := legsDistanceSum ⟨"??_ibE?", [⟨12000, 3600⟩]⟩ / 1000,
                duration := legsDurationSum ⟨"??_ibE?", [⟨12000, 3600⟩]⟩,
                points := "??_ibE?" }])) = _
  rw [hd]
  rw [if_neg (show ¬ ((12000 : ℚ) / 1000 < 10 ∨ (12000 : ℚ) / 1000 > 50) by norm_num)]
  rw [if_neg (show ¬ Part004.rejectedBySimilarity [] "??_ibE?" by
    simp [Part004.rejectedBySimilarity])]
  rw [show (99 : ℕ) = 98 + 1 from rfl, Part004.generateRoutesLoop]
  simp only [List.nil_append, List.length_cons, List.length_nil]
  rw [if_neg (show ¬ (0 + 1 : ℕ) < 1 by norm_num)]
  refine Prod.ext ?_ rfl
  norm_num [legsDurationSum, Part004.Route.mk.injEq, okRoute]
  rfl

/-- Witness for C1: the single route accepted from okProvider has distance
12000 / 1000 = 12, inside the requested band 10..50. -/
theorem generateRoutes_distance_band_witness :
    okRoute ∈ Part004.generateRoutes okProvider 1 10 50 ∧
      (((10 : ℚ) ≤ okRoute.distance ∧ okRoute.distance ≤ 50) ∧
        ∃ n route, (okProvider n).routes.head? = some route ∧
          okRoute.distance = legsDistanceSum route / 1000) := by
  have hmem : okRoute ∈ Part004.generateRoutes okProvider 1 10 50 := by
    rw [Part004.generateRoutes, generateRoutesRun_okProvider]
    simp
  exact ⟨hmem, generateRoutes_distance_band okProvider 1 10 50 _ hmem⟩

theorem overlapLengthAux_eq_filter_sum :
    ∀ l segs2 : List ((ℚ × ℚ) × (ℚ × ℚ)),
      overlapLengthAux l segs2 =
        (((l.filter fun s => segs2.any fun t => segMatch s t).map
            fun s => calculateSegmentLength s.1 s.2)).sum := by
  intro l segs2
  induction l with
  | nil => simp [overlapLengthAux]
  | cons s rest ih =>
    rw [overlapLengthAux, ih]
    by_cases h : segs2.any fun t => segMatch s t
    · rw [if_pos h, List.filter_cons_of_pos (by simpa using h), List.map_cons,
        List.sum_cons]
    · rw [if_neg h, List.filter_cons_of_neg (by simpa using h), zero_add]

/-- Claim C6: the length-based overlap ratio of part_004 equals the
specification formula (summed geographic length of the pathA segments
matching some pathB segment, start to start and end to end within the
fixed tolerance, divided by the larger path length), and the final
acceptance gate of generateRoutes rejects a candidate exactly when that
ratio against some already-accepted route exceeds 0.7. -/
theorem calculateRouteOverlap_spec_and_gate :
    (∀ polyline1 polyline2 : String,
      calculateRouteOverlap polyline1 polyline2 =
        overlapRatioSpec (polyDecode polyline1) (polyDecode polyline2)) ∧
    (∀ (routes : List Part004.Route) (candidate : String),
      Part004.rejectedBySimilarity routes candidate ↔
        ∃ existingRoute ∈ routes,
          overlapRatioSpec (polyDecode existingRoute.points)
            (polyDecode candidate) > 0.7) := by
  have hratio : ∀ polyline1 polyline2 : String,
      calculateRouteOverlap polyline1 polyline2 =
        overlapRatioSpec (polyDecode polyline1) (polyDecode polyline2) := by
    intro p1 p2
    rw [calculateRouteOverlap, calculateRouteOverlapPoints, overlapRatioSpec,
      overlapLengthAux_eq_filter_sum]
  refine ⟨hratio, ?_⟩
  intro routes candidate
  constructor
  · rintro ⟨-, r, hr, hgt⟩
    exact ⟨r, hr, by rw [← hratio]; exact hgt⟩
  · rintro ⟨r, hr, hgt⟩
    exact ⟨List.length_pos.mpr (List.ne_nil_of_mem hr),
      r, hr, by rw [hratio]; exact hgt⟩

theorem atan2_zero_one : atan2 0 1 = 0 := by
  rw [atan2, if_pos one_pos]
  simp [Real.arctan_zero]

theorem atan2_pos_of_pos (y x : ℝ) (hy : 0 < y) (hx : 0 < x) : 0 < atan2 y x := by
  rw [atan2, if_pos hx]
  have h := Real.arctan_strictMono (div_pos hy hx)
  rwa [Real.arctan_zero] at h

theorem segMatch_self (s : (ℚ × ℚ) × (ℚ × ℚ)) : segMatch s s = true := by
  simp only [segMatch, sub_self, abs_zero, decide_eq_true_eq, TOLERANCE]
  norm_num

theorem calculateSegmentLength_self (p : ℚ × ℚ) : calculateSegmentLength p p = 0 := by
  rw [calculateSegmentLength]
  have h1 : ((p.1 : ℝ) - (p.1 : ℝ)) * Real.pi / 180 = 0 := by ring
  have h2 : ((p.2 : ℝ) - (p.2 : ℝ)) * Real.pi / 180 = 0 := by ring
  rw [h1, h2]
  norm_num [Real.sin_zero, Real.sqrt_zero, Real.sqrt_one, atan2_zero_one]

theorem overlapLengthAux_total (l segs2 : List ((ℚ × ℚ) × (ℚ × ℚ)))
    (h : ∀ s ∈ l, segs2.any fun t => segMatch s t) :
    overlapLengthAux l segs2 =
      (l.map fun s => calculateSegmentLength s.1 s.2).sum := by
  induction l with
  | nil => simp [overlapLengthAux]
  | cons s rest ih =>
    rw [overlapLengthAux, if_pos (h s (by simp)), List.map_cons, List.sum_cons,
      ih fun t ht => h t (List.mem_cons_of_mem s ht)]

theorem selfOverlap_eq_one (p : List (ℚ × ℚ))
    (h : 0 < calculatePolylineLength p) :
    calculateRouteOverlapPoints p p = 1 := by
  have hall : ∀ s ∈ segmentsOf p, (segmentsOf p).any fun t => segMatch s t :=
    fun s hs => List.any_eq_true.mpr ⟨s, hs, segMatch_self s⟩
  rw [calculateRouteOverlapPoints, overlapLengthAux_total _ _ hall, max_self]
  rw [show ((segmentsOf p).map fun s => calculateSegmentLength s.1 s.2).sum =
    calculatePolylineLength p from rfl]
  exact div_self (ne_of_gt h)

/-- Claim C9, counterexample: the two-point path sitting twice at the same
coordinate has zero geographic length, so calculateRouteOverlap of the path
with itself divides 0 by 0 (NaN in JavaScript, hence not 1.0; 0 in the
total-division embedding), refuting self-overlap 1.0 for every path with at
least two points. -/
theorem calculateRouteOverlap_self_degenerate :
    ([((0 : ℚ), (0 : ℚ)), (0, 0)] : List (ℚ × ℚ)).length = 2 ∧
      calculateRouteOverlapPoints [((0 : ℚ), (0 : ℚ)), (0, 0)]
          [((0 : ℚ), (0 : ℚ)), (0, 0)] = 0 ∧
      calculateRouteOverlapPoints [((0 : ℚ), (0 : ℚ)), (0, 0)]
          [((0 : ℚ), (0 : ℚ)), (0, 0)] ≠ 1 := by
  have hseg : segmentsOf [((0 : ℚ), (0 : ℚ)), (0, 0)] =
      [(((0 : ℚ), (0 : ℚ)), ((0 : ℚ), (0 : ℚ)))] := rfl
  have hlen : calculatePolylineLength [((0 : ℚ), (0 : ℚ)), (0, 0)] = 0 := by
    rw [calculatePolylineLength, hseg]
    simp [calculateSegmentLength_self]
  have hval : calculateRouteOverlapPoints [((0 : ℚ), (0 : ℚ)), (0, 0)]
      [((0 : ℚ), (0 : ℚ)), (0, 0)] = 0 := by
    rw [calculateRouteOverlapPoints, hlen, max_self, hseg, overlapLengthAux]
    simp [calculateSegmentLength_self, overlapLengthAux]
  exact ⟨rfl, hval, by rw [hval]; norm_num⟩

/-- Claim C9, amended: for every path of positive geographic length (rather
than every path with at least two points), the length-based overlap ratio
of the path with itself is exactly 1: every segment matches itself, the
matched length sums to the full path length, and the division is by that
same length. -/
theorem calculateRouteOverlap_self_total (p : List (ℚ × ℚ))
    (h : 0 < calculatePolylineLength p) :
    calculateRouteOverlapPoints p p = 1 :=
  selfOverlap_eq_one p h

theorem polyDecode_two_points : polyDecode "??_ibE?" = [(0, 0), (1, 0)] := by
  norm_num [polyDecode, polyDecodeAux, readVarint, zigzagDecode,
    show Char.toNat '?' = 63 from rfl, show Char.toNat '_' = 95 from rfl,
    show Char.toNat 'i' = 105 from rfl, show Char.toNat 'b' = 98 from rfl,
    show Char.toNat 'E' = 69 from rfl]

theorem polyDecode_one_point : polyDecode "??" = [(0, 0)] := by
  norm_num [polyDecode, polyDecodeAux, readVarint, zigzagDecode,
    show Char.toNat '?' = 63 from rfl]

theorem posLength_segment :
    0 < calculateSegmentLength ((0 : ℚ), (0 : ℚ)) ((1 : ℚ), (0 : ℚ)) := by
  rw [calculateSegmentLength]
  have e1 : (((1 : ℚ) : ℝ) - ((0 : ℚ) : ℝ)) * Real.pi / 180 / 2 = Real.pi / 360 := by
    push_cast; ring
  have e2 : (((0 : ℚ) : ℝ) - ((0 : ℚ) : ℝ)) * Real.pi / 180 / 2 = 0 := by
    push_cast; ring
  simp only [e1, e2, Real.sin_zero, mul_zero, add_zero]
  have hs : 0 < Real.sin (Real.pi / 360) :=
    Real.sin_pos_of_pos_of_lt_pi (by positivity) (by linarith [Real.pi_pos])
  have hs1 : Real.sin (Real.pi / 360) < 1 := by
    have := Real.sin_lt_sin_of_lt_of_le_pi_div_two
      (x := Real.pi / 360) (y := Real.pi / 2) (by linarith [Real.pi_pos]) le_rfl
      (by linarith [Real.pi_pos])
    rwa [Real.sin_pi_div_two] at this
  have h1 : 0 < Real.sqrt (Real.sin (Real.pi / 360) * Real.sin (Real.pi / 360)) :=
    Real.sqrt_pos.mpr (mul_pos hs hs)
  have h2 : 0 < Real.sqrt (1 - Real.sin (Real.pi / 360) * Real.sin (Real.pi / 360)) :=
    Real.sqrt_pos.mpr (by nlinarith)
  have h3 := atan2_pos_of_pos _ _ h1 h2
  positivity

theorem posLength_example :
    0 < calculatePolylineLength [((0 : ℚ), (0 : ℚ)), (1, 0)] := by
  rw [calculatePolylineLength,
    show segmentsOf [((0 : ℚ), (0 : ℚ)), (1, 0)] =
      [(((0 : ℚ), (0 : ℚ)), ((1 : ℚ), (0 : ℚ)))] from rfl]
  simpa using posLength_segment

/-- Witness for the amended C9 at a concrete path of positive length. -/
theorem calculateRouteOverlap_self_total_witness :
    0 < calculatePolylineLength [((0 : ℚ), (0 : ℚ)), (1, 0)] ∧
      calculateRouteOverlapPoints [((0 : ℚ), (0 : ℚ)), (1, 0)]
        [((0 : ℚ), (0 : ℚ)), (1, 0)] = 1 :=
  ⟨posLength_example, calculateRouteOverlap_self_total _ posLength_example⟩

theorem generateRoutesLoop4_dedup (provider : ℕ → DirectionsResponse) (p : String)
    (hp : 0 < calculatePolylineLength (polyDecode p))
    (hsame : ∀ n r, (provider n).status = "OK" →
      (provider n).routes.head? = some r → r.overview_polyline = p)
    (numRoutes : ℕ) (minDistanceKm maxDistanceKm : ℚ) :
    ∀ (fuel attempts : ℕ) (routes : List Part004.Route),
      routes.length ≤ 1 → (∀ r ∈ routes, r.points = p) →
      (Part004.generateRoutesLoop provider numRoutes minDistanceKm maxDistanceKm
          fuel attempts routes).1.length ≤ 1 ∧
        ∀ r ∈ (Part004.generateRoutesLoop provider numRoutes minDistanceKm
            maxDistanceKm fuel attempts routes).1, r.points = p := by
  intro fuel
  induction fuel with
  | zero => intro attempts routes h1 h2; exact ⟨h1, h2⟩
  | succ fuel ih =>
    intro attempts routes h1 h2
    rw [Part004.generateRoutesLoop]
    split
    · split
      · exact ih _ _ h1 h2
      · split
        · exact ih _ _ h1 h2
        · next route heq =>
          have hstat : (provider attempts).status = "OK" := by
            next hne _ => exact not_ne_iff.mp hne
          have hpoly : route.overview_polyline = p := hsame attempts route hstat heq
          split
          · exact ih _ _ h1 h2
          · split
            · exact ih _ _ h1 h2
            · next hrej =>
              have hempty : routes = [] := by
                by_contra hne2
                apply hrej
                obtain ⟨r0, hr0⟩ := List.exists_mem_of_ne_nil routes hne2
                refine ⟨List.length_pos.mpr hne2, r0, hr0, ?_⟩
                rw [h2 r0 hr0, hpoly, calculateRouteOverlap,
                  selfOverlap_eq_one _ hp]
                norm_num
              subst hempty
              refine ih _ _ (by simp) ?_
              intro r hr
              rw [List.nil_append, List.mem_singleton] at hr
              subst hr
              exact hpoly
    · exact ⟨h1, h2⟩

theorem generateRoutesLoop3_dedup (provider : ℕ → DirectionsResponse) (p : String)
    (hsame : ∀ n r, (provider n).status = "OK" →
      (provider n).routes.head? = some r → r.overview_polyline = p)
    (maxRoutes : ℕ) :
    ∀ (fuel attempts : ℕ) (routes : List Part003.Route)
      (uniqueRoutes : List (List (ℚ × ℚ))),
      routes.length ≤ 1 → (0 < routes.length → polyDecode p ∈ uniqueRoutes) →
      (Part003.generateRoutesLoop provider maxRoutes fuel attempts routes
          uniqueRoutes).1.length ≤ 1 := by
  intro fuel
  induction fuel with
  | zero => intro attempts routes uniqueRoutes h1 _; exact h1
  | succ fuel ih =>
    intro attempts routes uniqueRoutes h1 h2
    rw [Part003.generateRoutesLoop]
    split
    · split
      · exact ih _ _ _ h1 h2
      · next hok =>
        push_neg at hok
        split
        · exact ih _ _ _ h1 h2
        · next route heq =>
          have hpoly : route.overview_polyline = p :=
            hsame attempts route hok.1 heq
          split
          · exact ih _ _ _ h1 h2
          · split
            · exact ih _ _ _ h1 h2
            · split
              · exact ih _ _ _ h1 h2
              · next hdup =>
                have hempty : routes = [] := by
                  by_contra hne2
                  exact hdup (by rw [hpoly]; exact h2 (List.length_pos.mpr hne2))
                subst hempty
                rw [if_neg (by simp)]
                refine ih _ _ _ (by simp) ?_
                intro _
                simp [hpoly]
    · exact h1

/-- Claim C5, amended: with a provider whose every successful response
carries one fixed overview polyline p, the part_003 generator accepts at
most one route unconditionally (the uniqueRoutes hash of the decoded path
rejects every repeat), and the part_004 generator accepts at most one route
provided the decoded path of p has positive geographic length (making the
self-overlap ratio 1 > 0.7); a polyline decoding to a path of zero length
defeats the part_004 overlap gate, whose ratio degenerates to NaN. -/
theorem generateRoutes_same_polyline_dedup (p : String) :
    (∀ (provider : ℕ → DirectionsResponse) (maxRoutes : ℕ),
      (∀ n r, (provider n).status = "OK" →
        (provider n).routes.head? = some r → r.overview_polyline = p) →
      (Part003.generateRoutes provider maxRoutes).length ≤ 1) ∧
    (0 < calculatePolylineLength (polyDecode p) →
      ∀ (provider : ℕ → DirectionsResponse) (numRoutes : ℕ)
        (minDistanceKm maxDistanceKm : ℚ),
      (∀ n r, (provider n).status = "OK" →
        (provider n).routes.head? = some r → r.overview_polyline = p) →
      (Part004.generateRoutes provider numRoutes minDistanceKm
          maxDistanceKm).length ≤ 1) := by
  constructor
  · intro provider maxRoutes hsame
    exact generateRoutesLoop3_dedup provider p hsame maxRoutes
      Part003.maxAttempts 0 [] [] (by simp) (by simp)
  · intro hp provider numRoutes minDistanceKm maxDistanceKm hsame
    exact (generateRoutesLoop4_dedup provider p hp hsame numRoutes minDistanceKm
      maxDistanceKm Part004.maxAttempts 0 [] (by simp) (by simp)).1

/-- Witness for the amended C5: the part_003 half at the degenerate
single-point polyline of the counterexample (no length hypothesis), and
the part_004 half at a concrete two-point polyline of positive length. -/
theorem generateRoutes_same_polyline_dedup_witness :
    (∀ (provider : ℕ → DirectionsResponse) (maxRoutes : ℕ),
      (∀ n r, (provider n).status = "OK" →
        (provider n).routes.head? = some r → r.overview_polyline = "??") →
      (Part003.generateRoutes provider maxRoutes).length ≤ 1) ∧
    (0 < calculatePolylineLength (polyDecode "??_ibE?") ∧
      (∀ (provider : ℕ → DirectionsResponse) (numRoutes : ℕ)
          (minDistanceKm maxDistanceKm : ℚ),
        (∀ n r, (provider n).status = "OK" →
          (provider n).routes.head? = some r → r.overview_polyline = "??_ibE?") →
        (Part004.generateRoutes provider numRoutes minDistanceKm
            maxDistanceKm).length ≤ 1)) := by
  have hp : 0 < calculatePolylineLength (polyDecode "??_ibE?") := by
    rw [polyDecode_two_points]
    exact posLength_example
  exact ⟨(generateRoutes_same_polyline_dedup "??").1,
    hp, (generateRoutes_same_polyline_dedup "??_ibE?").2 hp⟩

theorem generateRoutesLoop4_step_accept (provider : ℕ → DirectionsResponse)
    (numRoutes : ℕ) (minDistanceKm maxDistanceKm : ℚ) (fuel attempts : ℕ)
    (routes : List Part004.Route) (route : DirectionsRoute)
    (newRoute : Part004.Route)
    (hlen : routes.length < numRoutes)
    (hstat : (provider attempts).status = "OK")
    (hhead : (provider attempts).routes.head? = some route)
    (hband : ¬ (legsDistanceSum route / 1000 < minDistanceKm ∨
      legsDistanceSum route / 1000 > maxDistanceKm))
    (hrej : ¬ Part004.rejectedBySimilarity routes route.overview_polyline)
    (hnew : newRoute = { id := attempts,
                         name := "Route " ++ toString (routes.length + 1),
                         distance := legsDistanceSum route / 1000,
                         duration := legsDurationSum route,
                         points := route.overview_polyline }) :
    Part004.generateRoutesLoop provider numRoutes minDistanceKm maxDistanceKm
        (fuel + 1) attempts routes =
      Part004.generateRoutesLoop provider numRoutes minDistanceKm maxDistanceKm
        fuel (attempts + 1) (routes ++ [newRoute]) := by
  rw [Part004.generateRoutesLoop, if_pos hlen,
    if_neg (show ¬ (provider attempts).status ≠ "OK" from not_ne_iff.mpr hstat),
    hhead, hnew]
  show (if legsDistanceSum route / 1000 < minDistanceKm ∨
      legsDistanceSum route / 1000 > maxDistanceKm then
    Part004.generateRoutesLoop provider numRoutes minDistanceKm maxDistanceKm
      fuel (attempts + 1) routes
  else if Part004.rejectedBySimilarity routes route.overview_polyline then
    Part004.generateRoutesLoop provider numRoutes minDistanceKm maxDistanceKm
      fuel (attempts + 1) routes
  else
    Part004.generateRoutesLoop provider numRoutes minDistanceKm maxDistanceKm
      fuel (attempts + 1)
      (routes ++ [{ id := attempts,
                    name := "Route " ++ toString (routes.length + 1),
                    distance := legsDistanceSum route / 1000,
                    duration := legsDurationSum route,
                    points := route.overview_polyline }])) = _
  rw [if_neg hband, if_neg hrej]

theorem generateRoutesLoop4_step_stop (provider : ℕ → DirectionsResponse)
    (numRoutes : ℕ) (minDistanceKm maxDistanceKm : ℚ) (fuel attempts : ℕ)
    (routes : List Part004.Route) (hlen : ¬ routes.length < numRoutes) :
    Part004.generateRoutesLoop provider numRoutes minDistanceKm maxDistanceKm
        (fuel + 1) attempts routes = (routes, attempts) := by
  rw [Part004.generateRoutesLoop, if_neg hlen]

/-- Provider stub answering every request with the same degenerate
single-point polyline and one 15000 m, 60 s leg. -/
def dupProvider : ℕ → DirectionsResponse :=
  fun _ => { status := "OK",
             routes := [{ overview_polyline := "??", legs := [⟨15000, 60⟩] }] }

theorem calculateRouteOverlap_one_point : calculateRouteOverlap "??" "??" = 0 := by
  rw [calculateRouteOverlap, polyDecode_one_point, calculateRouteOverlapPoints,
    show segmentsOf [((0 : ℚ), (0 : ℚ))] = [] from rfl, overlapLengthAux]
  simp [calculatePolylineLength, show segmentsOf [((0 : ℚ), (0 : ℚ))] = [] from rfl]

/-- Route record the part_004 generator accepts from dupProvider on its
first attempt. -/
def dupRoute1 : Part004.Route :=
  { id := 0, name := "Route 1", distance := 15, duration := 60, points := "??" }

/-- Second accepted copy of the degenerate route. -/
def dupRoute2 : Part004.Route :=
  { id := 1, name := "Route 2", distance := 15, duration := 60, points := "??" }

theorem generateRoutesRun_dupProvider :
    Part004.generateRoutesRun dupProvider 2 10 50 = ([dupRoute1, dupRoute2], 2) := by
  have hband : ¬ (legsDistanceSum ⟨"??", [⟨15000, 60⟩]⟩ / 1000 < (10 : ℚ) ∨
      legsDistanceSum ⟨"??", [⟨15000, 60⟩]⟩ / 1000 > (50 : ℚ)) := by
    norm_num [legsDistanceSum]
  have hnew1 : dupRoute1 =
      { id := 0,
        name := "Route " ++ toString (List.length ([] : List Part004.Route) + 1),
        distance := legsDistanceSum ⟨"??", [⟨15000, 60⟩]⟩ / 1000,
        duration := legsDurationSum ⟨"??", [⟨15000, 60⟩]⟩,
        points := DirectionsRoute.overview_polyline ⟨"??", [⟨15000, 60⟩]⟩ } := by
    norm_num [dupRoute1, legsDistanceSum, legsDurationSum, Part004.Route.mk.injEq]
    rfl
  have hnew2 : dupRoute2 =
      { id := 1,
        name := "Route " ++ toString (([] ++ [dupRoute1]).length + 1),
        distance := legsDistanceSum ⟨"??", [⟨15000, 60⟩]⟩ / 1000,
        duration := legsDurationSum ⟨"??", [⟨15000, 60⟩]⟩,
        points := DirectionsRoute.overview_polyline ⟨"??", [⟨15000, 60⟩]⟩ } := by
    norm_num [dupRoute2, legsDistanceSum, legsDurationSum, Part004.Route.mk.injEq]
    rfl
  rw [Part004.generateRoutesRun, show Part004.maxAttempts = 99 + 1 from rfl,
    generateRoutesLoop4_step_accept dupProvider 2 10 50 99 0 [] ⟨"??", [⟨15000, 60⟩]⟩
      dupRoute1 (by simp) rfl rfl hband (by rintro ⟨h0, -⟩; simp at h0) hnew1]
  rw [show (99 : ℕ) = 98 + 1 from rfl,
    generateRoutesLoop4_step_accept dupProvider 2 10 50 98 1 ([] ++ [dupRoute1])
      ⟨"??", [⟨15000, 60⟩]⟩ dupRoute2 (by simp) rfl rfl hband ?hrej hnew2]
  case hrej =>
    rintro ⟨-, r, hr, hgt⟩
    simp only [List.nil_append, List.mem_singleton] at hr
    subst hr
    rw [show dupRoute1.points = "??" from rfl, calculateRouteOverlap_one_point] at hgt
    norm_num at hgt
  rw [show (98 : ℕ) = 97 + 1 from rfl,
    generateRoutesLoop4_step_stop dupProvider 2 10 50 97 2 _ (by simp)]
  rfl

/-- Claim C5, counterexample: dupProvider returns the exact same polyline
on every successful call, yet the part_004 generator accepts two routes:
the shared polyline decodes to a single point, the self-overlap ratio
degenerates to 0/0 (NaN in JavaScript, 0 here), the gate comparison with
0.7 is false, and the exact repeat is accepted again. -/
theorem generateRoutes_same_polyline_cex :
    (∀ n r, (dupProvider n).status = "OK" →
      (dupProvider n).routes.head? = some r → r.overview_polyline = "??") ∧
      (Part004.generateRoutes dupProvider 2 10 50).length = 2 := by
  refine ⟨fun n r _ hr => ?_, ?_⟩
  · simp only [dupProvider, List.head?] at hr
    cases hr
    rfl
  · rw [Part004.generateRoutes, generateRoutesRun_dupProvider]
    rfl

theorem calculateDistance_symm (lat1 lon1 lat2 lon2 : ℝ) :
    calculateDistance lat1 lon1 lat2 lon2 = calculateDistance lat2 lon2 lat1 lon1 := by
  rw [calculateDistance, calculateDistance]
  have ha : Real.sin ((lat2 - lat1) * Real.pi / 180 / 2) *
        Real.sin ((lat2 - lat1) * Real.pi / 180 / 2) +
        Real.cos (lat1 * Real.pi / 180) * Real.cos (lat2 * Real.pi / 180) *
        Real.sin ((lon2 - lon1) * Real.pi / 180 / 2) *
        Real.sin ((lon2 - lon1) * Real.pi / 180 / 2) =
      Real.sin ((lat1 - lat2) * Real.pi / 180 / 2) *
        Real.sin ((lat1 - lat2) * Real.pi / 180 / 2) +
        Real.cos (lat2 * Real.pi / 180) * Real.cos (lat1 * Real.pi / 180) *
        Real.sin ((lon1 - lon2) * Real.pi / 180 / 2) *
        Real.sin ((lon1 - lon2) * Real.pi / 180 / 2) := by
    rw [show (lat2 - lat1) * Real.pi / 180 / 2 =
        -((lat1 - lat2) * Real.pi / 180 / 2) by ring,
      show (lon2 - lon1) * Real.pi / 180 / 2 =
        -((lon1 - lon2) * Real.pi / 180 / 2) by ring,
      Real.sin_neg, Real.sin_neg]
    ring
  rw [ha]

theorem sampleLoop_separation (rands : ℕ → ℝ × ℝ) (startLocation : Location)
    (radius : ℝ) (num : ℕ) :
    ∀ (fuel attempts : ℕ) (ws : List Location) (used : List (ℤ × ℤ)),
      (∀ p ∈ ws, radius * 0.1 ≤ calculateDistance p.latitude p.longitude
        startLocation.latitude startLocation.longitude) →
      ws.Pairwise (fun a b =>
        radius * 0.1 ≤ calculateDistance a.latitude a.longitude
          b.latitude b.longitude ∧
        radius * 0.1 ≤ calculateDistance b.latitude b.longitude
          a.latitude a.longitude) →
      (∀ p ∈ (Part004.sampleLoop rands startLocation radius num fuel attempts
          ws used).1,
        radius * 0.1 ≤ calculateDistance p.latitude p.longitude
          startLocation.latitude startLocation.longitude) ∧
      (Part004.sampleLoop rands startLocation radius num fuel attempts
          ws used).1.Pairwise (fun a b =>
        radius * 0.1 ≤ calculateDistance a.latitude a.longitude
          b.latitude b.longitude ∧
        radius * 0.1 ≤ calculateDistance b.latitude b.longitude
          a.latitude a.longitude) := by
  intro fuel
  induction fuel with
  | zero => intro attempts ws used h1 h2; exact ⟨h1, h2⟩
  | succ fuel ih =>
    intro attempts ws used h1 h2
    rw [Part004.sampleLoop]
    by_cases hgo : ws.length < num
    · rw [if_pos hgo]
      by_cases hacc : (Part004.pointKey (Part004.generateRandomPoint startLocation radius
            (rands attempts).1 (rands attempts).2) ∉ used) ∧
          ¬ ∃ existingPoint ∈ startLocation :: ws,
            calculateDistance
              (Part004.generateRandomPoint startLocation radius
                (rands attempts).1 (rands attempts).2).latitude
              (Part004.generateRandomPoint startLocation radius
                (rands attempts).1 (rands attempts).2).longitude
              existingPoint.latitude existingPoint.longitude < radius * 0.1
      · rw [if_pos hacc]
        have hfar : ∀ e ∈ startLocation :: ws,
            radius * 0.1 ≤ calculateDistance
              (Part004.generateRandomPoint startLocation radius
                (rands attempts).1 (rands attempts).2).latitude
              (Part004.generateRandomPoint startLocation radius
                (rands attempts).1 (rands attempts).2).longitude
              e.latitude e.longitude := by
          intro e he
          by_contra hlt
          exact hacc.2 ⟨e, he, not_le.mp hlt⟩
        refine ih (attempts + 1) _ _ ?_ ?_
        · intro p hp
          rcases List.mem_append.mp hp with h | h
          · exact h1 p h
          · rw [List.mem_singleton] at h
            subst h
            exact hfar startLocation (by simp)
        · rw [List.pairwise_append]
          refine ⟨h2, by simp, ?_⟩
          intro a ha b hb
          rw [List.mem_singleton] at hb
          subst hb
          have hba := hfar a (List.mem_cons_of_mem _ ha)
          exact ⟨by rw [calculateDistance_symm]; exact hba, hba⟩
      · rw [if_neg hacc]
        exact ih (attempts + 1) ws used h1 h2
    · rw [if_neg hgo]
      exact ⟨h1, h2⟩

/-- Claim C7: in the waypoint list returned by one call of the part_004
sampler, every waypoint lies at haversine distance at least radius * 0.1
from the start location, and every two distinct waypoints lie at least
radius * 0.1 apart (proved for every radius, hence for every positive
one). -/
theorem generateRandomWaypoints_separation (rands : ℕ → ℝ × ℝ)
    (startLocation : Location) (radius : ℝ) (numWaypoints : ℕ) :
    (∀ p ∈ Part004.generateRandomWaypoints rands startLocation radius numWaypoints,
      radius * 0.1 ≤ calculateDistance p.latitude p.longitude
        startLocation.latitude startLocation.longitude) ∧
    (∀ p ∈ Part004.generateRandomWaypoints rands startLocation radius numWaypoints,
      ∀ q ∈ Part004.generateRandomWaypoints rands startLocation radius numWaypoints,
      p ≠ q →
      radius * 0.1 ≤ calculateDistance p.latitude p.longitude
        q.latitude q.longitude) := by
  obtain ⟨h1, h2⟩ := sampleLoop_separation rands startLocation radius numWaypoints
    (numWaypoints * 5) 0 [] [] (by simp) (by simp)
  have hperm : List.Perm
      (Part004.generateRandomWaypoints rands startLocation radius numWaypoints)
      (Part004.sampleLoop rands startLocation radius numWaypoints
        (numWaypoints * 5) 0 [] []).1 := by
    rw [Part004.generateRandomWaypoints, Part004.generateRandomWaypointsRun]
    exact List.mergeSort_perm _ _
  have hsymm : ∀ {a b : Location},
      (radius * 0.1 ≤ calculateDistance a.latitude a.longitude
          b.latitude b.longitude ∧
        radius * 0.1 ≤ calculateDistance b.latitude b.longitude
          a.latitude a.longitude) →
      (radius * 0.1 ≤ calculateDistance b.latitude b.longitude
          a.latitude a.longitude ∧
        radius * 0.1 ≤ calculateDistance a.latitude a.longitude
          b.latitude b.longitude) := fun h => ⟨h.2, h.1⟩
  have hpair := (hperm.pairwise_iff fun h => hsymm h).mpr h2
  constructor
  · intro p hp
    exact h1 p (hperm.mem_iff.mp hp)
  · intro p hp q hq hne
    exact (List.Pairwise.forall (fun a b h => hsymm h) hpair hp hq hne).1

/-- Claim C2, counterexample: the part_004 sampler projects with the
spherical destination formula and never clamps or wraps the longitude; at
the in-range centre (0, 180), positive radius 10 km and random draws
(0, 1/4) (bearing due east, fraction 0.3) the returned longitude exceeds
180 degrees. -/
theorem generateRandomPoint_longitude_out_of_range :
    (Part004.generateRandomPoint ⟨0, 180⟩ 10 0 (1 / 4)).longitude > 180 := by
  rw [Part004.generateRandomPoint]
  simp only [Real.sin_zero, Real.cos_zero, zero_mul, mul_zero, zero_add, mul_one,
    one_mul, sub_zero, Real.arcsin_zero]
  have hb : Real.sin ((1 : ℝ) / 4 * 2 * Real.pi) = 1 := by
    rw [show (1 : ℝ) / 4 * 2 * Real.pi = Real.pi / 2 by ring, Real.sin_pi_div_two]
  have hd : (10 : ℝ) / 6371 * (0.3 + 0) = 3 / 6371 := by norm_num
  rw [hb, hd, one_mul]
  have hpi := Real.pi_pos
  have h3 := Real.pi_gt_three
  have hdlt : (3 : ℝ) / 6371 < Real.pi / 2 := by
    have : (3 : ℝ) / 6371 < 3 / 2 := by norm_num
    linarith
  have hcos : 0 < Real.cos (3 / 6371) :=
    Real.cos_pos_of_mem_Ioo ⟨by linarith, hdlt⟩
  have hata : atan2 (Real.sin (3 / 6371)) (Real.cos (3 / 6371)) = 3 / 6371 := by
    rw [atan2, if_pos hcos, ← Real.tan_eq_sin_div_cos,
      Real.arctan_tan (by linarith) hdlt]
  rw [show (180 : ℝ) * (Real.pi / 180) = Real.pi by ring, hata]
  have hexp : (Real.pi + 3 / 6371) * (180 / Real.pi) =
      180 + 3 / 6371 * (180 / Real.pi) := by
    field_simp
    ring
  rw [hexp]
  have hpos : 0 < 3 / 6371 * (180 / Real.pi) := by positivity
  linarith

/-- Claim C2, amended: the part_003 sampler clamps both coordinates into
range (latitude within -90..90 and longitude within -180..180 for every
centre, radius and draw); the part_004 sampler always returns a latitude
in -90..90 (arcsine range), but its longitude is neither clamped nor
wrapped and can leave -180..180 for centres near the antimeridian. -/
theorem generateRandomPoint_range :
    (∀ (center : Location) (radiusInKm u v : ℝ),
      -90 ≤ (Part003.generateRandomPoint center radiusInKm u v).latitude ∧
      (Part003.generateRandomPoint center radiusInKm u v).latitude ≤ 90 ∧
      -180 ≤ (Part003.generateRandomPoint center radiusInKm u v).longitude ∧
      (Part003.generateRandomPoint center radiusInKm u v).longitude ≤ 180) ∧
    (∀ (center : Location) (radiusInKm u v : ℝ),
      -90 ≤ (Part004.generateRandomPoint center radiusInKm u v).latitude ∧
      (Part004.generateRandomPoint center radiusInKm u v).latitude ≤ 90) := by
  constructor
  · intro center radiusInKm u v
    rw [Part003.generateRandomPoint]
    exact ⟨le_max_left _ _, max_le (by norm_num) (min_le_left _ _),
      le_max_left _ _, max_le (by norm_num) (min_le_left _ _)⟩
  · intro center radiusInKm u v
    rw [Part004.generateRandomPoint]
    have hpi := Real.pi_pos
    have hcoef : (0 : ℝ) ≤ 180 / Real.pi := by positivity
    have hhi : (Real.pi / 2) * (180 / Real.pi) = 90 := by
      field_simp
      ring
    constructor
    · have := mul_le_mul_of_nonneg_right
        (Real.neg_pi_div_two_le_arcsin (Real.sin (center.latitude * (Real.pi / 180)) *
          Real.cos (radiusInKm / 6371 * (0.3 + u * (1 - 0.3))) +
          Real.cos (center.latitude * (Real.pi / 180)) *
          Real.sin (radiusInKm / 6371 * (0.3 + u * (1 - 0.3))) *
          Real.cos (v * 2 * Real.pi))) hcoef
      have hneg : -(Real.pi / 2) * (180 / Real.pi) = -90 := by
        field_simp
        ring
      rw [hneg] at this
      exact this
    · have := mul_le_mul_of_nonneg_right
        (Real.arcsin_le_pi_div_two (Real.sin (center.latitude * (Real.pi / 180)) *
          Real.cos (radiusInKm / 6371 * (0.3 + u * (1 - 0.3))) +
          Real.cos (center.latitude * (Real.pi / 180)) *
          Real.sin (radiusInKm / 6371 * (0.3 + u * (1 - 0.3))) *
          Real.cos (v * 2 * Real.pi))) hcoef
      rw [hhi] at this
      exact this
